import Mathlib

/-
Shallow embedding of the samlidp administrative core (vine-io/saml):
the abstract key-value Store, the Service / User / Shortcut CRUD handlers,
the in-memory service-provider registry, and the IDP-initiated login
dispatcher.  Go maps are modelled as association lists, Go errors as
Except, and the possibility of backend failure on each Store call as an
explicit optional injected fault (none = the backend behaves ideally).
-/

namespace Samlidp

/-- Errors produced by the abstract Store.  `notFound` models the package
level `ErrNotFound` sentinel; `other n` models any distinct backend
failure (connectivity, serialization, ...). -/
inductive StoreErr
  | notFound
  | other (n : Nat)
deriving DecidableEq, Repr

/-- The error returned by `GetServiceProvider` when the entity is not in
the registry; models Go `os.ErrNotExist`. -/
inductive LookupErr
  | errNotExist
deriving DecidableEq, Repr

/-- Model of `saml.EntityDescriptor`: the `EntityID` field that the
registry is keyed by, plus an opaque abstraction of the rest of the XML
document. -/
structure EntityDescriptor where
  EntityID : String
  rest : String
deriving DecidableEq, Repr

/-- Go struct `Service` (services.go): a configured service provider. -/
structure Service where
  Name : String
  Metadata : EntityDescriptor
deriving DecidableEq, Repr

/-- Go struct `User` (user.go).  `HashedPassword []byte` is a byte list
(`[]` models the nil slice); `PlaintextPassword *string` is an Option. -/
structure User where
  Name : String := ""
  PlaintextPassword : Option String := none
  HashedPassword : List Nat := []
  Groups : List String := []
  Email : String := ""
  CommonName : String := ""
  Surname : String := ""
  GivenName : String := ""
  ScopedAffiliation : String := ""
deriving DecidableEq, Repr

/-- Go struct `Shortcut` (shortcut.go). -/
structure Shortcut where
  Name : String := ""
  ServiceProviderID : String := ""
  RelayState : Option String := none
  URISuffixAsRelayState : Bool := false
deriving DecidableEq, Repr

/-- A value held by the abstract Store; the store is a single keyspace
with kind-specific prefixes, so each key holds the serialization of one
of the resource structs. -/
inductive StoreValue
  | service (s : Service)
  | user (u : User)
  | shortcut (sc : Shortcut)
deriving DecidableEq, Repr

/-- Unmarshalling a stored value into a `Service` target.  Keys under
`/services/` always hold services; decoding a mismatched kind yields the
zero value, mirroring Go unmarshalling into a struct with no matching
fields. -/
def StoreValue.asService : StoreValue → Service
  | .service s => s
  | _ => { Name := "", Metadata := { EntityID := "", rest := "" } }

/-- Unmarshalling a stored value into a `User` target. -/
def StoreValue.asUser : StoreValue → User
  | .user u => u
  | _ => {}

/-- Unmarshalling a stored value into a `Shortcut` target. -/
def StoreValue.asShortcut : StoreValue → Shortcut
  | .shortcut sc => sc
  | _ => {}

/-- Association-list map: lookup, mirroring Go `m[k]` / `m[k], ok`. -/
def mapLookup {α : Type} : List (String × α) → String → Option α
  | [], _ => none
  | (k₁, v₁) :: rest, k => if k₁ = k then some v₁ else mapLookup rest k

/-- Association-list map: insert or overwrite, mirroring Go `m[k] = v`. -/
def mapInsert {α : Type} : List (String × α) → String → α → List (String × α)
  | [], k, v => [(k, v)]
  | (k₁, v₁) :: rest, k, v =>
      if k₁ = k then (k, v) :: rest else (k₁, v₁) :: mapInsert rest k v

/-- Association-list map: remove, mirroring Go `delete(m, k)`. -/
def mapRemove {α : Type} : List (String × α) → String → List (String × α)
  | [], _ => []
  | (k₁, v₁) :: rest, k =>
      if k₁ = k then mapRemove rest k else (k₁, v₁) :: mapRemove rest k

/-- The durable contents of the abstract Store. -/
abbrev StoreMap := List (String × StoreValue)

/-- Model of `Store.Get` against an ideally-behaving backend: fetches the value at
`key`, failing with `ErrNotFound` when absent (store.go contract). -/
def storeGet (st : StoreMap) (key : String) : Except StoreErr StoreValue :=
  match mapLookup st key with
  | none => .error .notFound
  | some v => .ok v

/-- Model of `Store.Get` with an optional injected backend fault: `some e` makes
the call fail with `e`, `none` lets the ideal backend answer. -/
def storeGetF (st : StoreMap) (fault : Option StoreErr) (key : String) :
    Except StoreErr StoreValue :=
  match fault with
  | some e => .error e
  | none => storeGet st key

/-- Model of `Store.Put` with an optional injected backend fault: on success the
value is upserted at `key` (store.go contract: overwrites silently). -/
def storePutF (st : StoreMap) (fault : Option StoreErr) (key : String)
    (v : StoreValue) : Except StoreErr StoreMap :=
  match fault with
  | some e => .error e
  | none => .ok (mapInsert st key v)

/-- Model of `Store.Delete` with an optional injected backend fault: on success
the key is removed. -/
def storeDeleteF (st : StoreMap) (fault : Option StoreErr) (key : String) :
    Except StoreErr StoreMap :=
  match fault with
  | some e => .error e
  | none => .ok (mapRemove st key)

/-- Model of `Store.List`: all keys starting with `pre`, with the prefix stripped
(store.go contract), in backend order. -/
def storeList (st : StoreMap) (pre : String) : List String :=
  st.filterMap (fun kv =>
    if kv.1.take pre.length = pre then some (kv.1.drop pre.length) else none)

/-- The parts of the Go `Server` the administrative core touches: the
durable Store and the in-memory service-provider registry
(`serviceProviders map[string]*saml.EntityDescriptor`, guarded by
`idpConfigMu`; lock acquisition is a no-op in this sequential model). -/
structure Server where
  store : StoreMap
  serviceProviders : List (String × EntityDescriptor)
deriving DecidableEq, Repr

/-- Outcome of a CRUD handler written to the gin ResponseWriter.
`http.Error(w, http.StatusText(code), code)` writes only the code and its
canonical text, so every internal-error reply is the same bytes. -/
inductive Response
  | okXMLEntityDescriptor (d : EntityDescriptor)
  | okJSONUser (u : User)
  | okJSONShortcut (sc : Shortcut)
  | okJSONList (field : String) (items : List String)
  | noContent
  | badRequest
  | internalServerError
deriving DecidableEq, Repr

/-- The request body of a Service PUT, as seen by the XML metadata
decoder: either well-formed metadata or malformed bytes. -/
inductive SPMetadataBody
  | valid (d : EntityDescriptor)
  | malformed
deriving DecidableEq, Repr

/-- Modelled from the spec: `getSPMetadata` (defined in the excluded saml
protocol package, not under src/) decodes the XML request body into an
`EntityDescriptor`, failing on malformed input.  The body is modelled as
an already-classified value. -/
def getSPMetadata : SPMetadataBody → Except Unit EntityDescriptor
  | .valid d => .ok d
  | .malformed => .error ()

/-- Function `GetServiceProvider` (services.go): registry lookup under the shared
read lock; returns `os.ErrNotExist` when the service provider is
unknown. -/
def GetServiceProvider (s : Server) (serviceProviderID : String) :
    Except LookupErr EntityDescriptor :=
  match mapLookup s.serviceProviders serviceProviderID with
  | none => .error .errNotExist
  | some rv => .ok rv

/-- Handler `HandleGetService` (services.go): Store.Get at `/services/:id`; any
error maps to the 500 response; otherwise the metadata is XML-encoded to
the response writer. -/
def HandleGetService (s : Server) (id : String) (getFault : Option StoreErr) :
    Response :=
  match storeGetF s.store getFault ("/services/" ++ id) with
  | .error _ => .internalServerError
  | .ok v => .okXMLEntityDescriptor v.asService.Metadata

/-- Handler `HandlePutService` (services.go): decode the XML metadata (400 on
failure), store the Service record (its `Name` field is never assigned
and stays the zero value), and only after a successful Store.Put insert
the metadata into the registry keyed by its EntityID; 204 on success. -/
def HandlePutService (s : Server) (id : String) (body : SPMetadataBody)
    (putFault : Option StoreErr) : Server × Response :=
  match getSPMetadata body with
  | .error _ => (s, .badRequest)
  | .ok metadata =>
    let service : Service := { Name := "", Metadata := metadata }
    match storePutF s.store putFault ("/services/" ++ id) (.service service) with
    | .error _ => (s, .internalServerError)
    | .ok st =>
      ({ store := st,
         serviceProviders :=
           mapInsert s.serviceProviders service.Metadata.EntityID
             service.Metadata },
       .noContent)

/-- Handler `HandleDeleteService` (services.go): Store.Get the record (to learn
which registry key to evict), Store.Delete it, and only after both have
succeeded remove its EntityID from the registry; any Store error yields
the 500 response with no registry change. -/
def HandleDeleteService (s : Server) (id : String)
    (getFault deleteFault : Option StoreErr) : Server × Response :=
  match storeGetF s.store getFault ("/services/" ++ id) with
  | .error _ => (s, .internalServerError)
  | .ok v =>
    let service := v.asService
    match storeDeleteF s.store deleteFault ("/services/" ++ id) with
    | .error _ => (s, .internalServerError)
    | .ok st =>
      ({ store := st,
         serviceProviders :=
           mapRemove s.serviceProviders service.Metadata.EntityID },
       .noContent)

/-- Loop body of `initializeServices`: Store.Get each listed service and
insert its metadata into the registry; any Store error aborts. -/
def initServicesLoop (st : StoreMap) :
    List String → List (String × EntityDescriptor) →
    Except StoreErr (List (String × EntityDescriptor))
  | [], reg => .ok reg
  | serviceName :: rest, reg =>
    match storeGet st ("/services/" ++ serviceName) with
    | .error e => .error e
    | .ok v =>
      initServicesLoop st rest
        (mapInsert reg v.asService.Metadata.EntityID v.asService.Metadata)

/-- Startup routine `initializeServices` (services.go): at startup, list every stored
service under `/services/`, fetch each and insert its metadata into the
registry keyed by EntityID; any Store error aborts startup. -/
def initializeServices (s : Server) : Except StoreErr Server :=
  match initServicesLoop s.store (storeList s.store "/services/")
      s.serviceProviders with
  | .error e => .error e
  | .ok reg => .ok { s with serviceProviders := reg }

/-- The request body of a User PUT, as seen by the JSON decoder: either a
decoded `User` (any subset of its fields may have been supplied, the rest
take zero values) or malformed JSON. -/
inductive UserBody
  | valid (u : User)
  | malformed
deriving DecidableEq, Repr

/-- A one-way password hash in the style of `bcrypt.GenerateFromPassword`
(external library, used only through its hash contract): may fail. -/
abbrev HashFn := String → Except Unit (List Nat)

/-- Handler `HandleGetUser` (user.go): Store.Get at `/users/:id`; any error maps
to the 500 response; on success `HashedPassword` is set to nil before the
record is JSON-encoded to the response writer. -/
def HandleGetUser (s : Server) (id : String) (getFault : Option StoreErr) :
    Response :=
  match storeGetF s.store getFault ("/users/" ++ id) with
  | .error _ => .internalServerError
  | .ok v => .okJSONUser { v.asUser with HashedPassword := [] }

/-- Handler `HandlePutUser` (user.go): decode the body (400 on failure), set
`Name` from the `:id` path parameter, then resolve the credential: if a
plaintext password was supplied hash it into `HashedPassword` (500 if
hashing fails); otherwise Store.Get the existing record and carry its
`HashedPassword` forward, with `ErrNotFound` a no-op and any other error
a 500 abort.  `PlaintextPassword` is cleared before Store.Put; 204 on
success. -/
def HandlePutUser (s : Server) (id : String) (body : UserBody)
    (hash : HashFn) (getFault putFault : Option StoreErr) :
    Server × Response :=
  match body with
  | .malformed => (s, .badRequest)
  | .valid u₀ =>
    let u₁ := { u₀ with Name := id }
    let credential : Except Unit (List Nat) :=
      match u₁.PlaintextPassword with
      | some pw =>
        match hash pw with
        | .error _ => .error ()
        | .ok h => .ok h
      | none =>
        match storeGetF s.store getFault ("/users/" ++ id) with
        | .ok existingUser => .ok existingUser.asUser.HashedPassword
        | .error .notFound => .ok u₁.HashedPassword
        | .error (.other _) => .error ()
    match credential with
    | .error _ => (s, .internalServerError)
    | .ok cred =>
      let u₂ := { u₁ with HashedPassword := cred, PlaintextPassword := none }
      match storePutF s.store putFault ("/users/" ++ id) (.user u₂) with
      | .error _ => (s, .internalServerError)
      | .ok st => ({ s with store := st }, .noContent)

/-- Handler `HandleDeleteUser` (user.go): Store.Delete at `/users/:id`; 500 on
error, 204 on success. -/
def HandleDeleteUser (s : Server) (id : String)
    (deleteFault : Option StoreErr) : Server × Response :=
  match storeDeleteF s.store deleteFault ("/users/" ++ id) with
  | .error _ => (s, .internalServerError)
  | .ok st => ({ s with store := st }, .noContent)

/-- The request body of a Shortcut PUT, as seen by the JSON decoder. -/
inductive ShortcutBody
  | valid (sc : Shortcut)
  | malformed
deriving DecidableEq, Repr

/-- Handler `HandleGetShortcut` (shortcut.go): Store.Get at `/shortcuts/:id`; any
error maps to the 500 response; otherwise the shortcut is JSON-encoded
to the response writer. -/
def HandleGetShortcut (s : Server) (id : String)
    (getFault : Option StoreErr) : Response :=
  match storeGetF s.store getFault ("/shortcuts/" ++ id) with
  | .error _ => .internalServerError
  | .ok v => .okJSONShortcut v.asShortcut

/-- Handler `HandlePutShortcut` (shortcut.go): decode the body (400 on failure),
set `Name` from the `:id` path parameter, Store.Put the record; 500 on
store error, 204 on success. -/
def HandlePutShortcut (s : Server) (id : String) (body : ShortcutBody)
    (putFault : Option StoreErr) : Server × Response :=
  match body with
  | .malformed => (s, .badRequest)
  | .valid sc₀ =>
    let sc₁ := { sc₀ with Name := id }
    match storePutF s.store putFault ("/shortcuts/" ++ id) (.shortcut sc₁) with
    | .error _ => (s, .internalServerError)
    | .ok st => ({ s with store := st }, .noContent)

/-- Outcome of `HandleIDPInitiated`: either the 500 error response, or
the hand-off into the excluded protocol engine
(`IDP.ServeIDPInitiated(w, r, serviceProviderID, relayState)`). -/
inductive IDPInitResult
  | errorResponse
  | handoff (serviceProviderID relayState : String)
deriving DecidableEq, Repr

/-- Handler `HandleIDPInitiated` (shortcut.go): Store.Get the named shortcut (500
on any error), then compute the relay state — the fixed `RelayState`
string when set, else the `state` path parameter when
`URISuffixAsRelayState` is true, else the empty string — and hand
`(ServiceProviderID, relayState)` to `ServeIDPInitiated` under the
shared registry read lock. -/
def HandleIDPInitiated (s : Server) (shortcutName stateParam : String)
    (getFault : Option StoreErr) : IDPInitResult :=
  match storeGetF s.store getFault ("/shortcuts/" ++ shortcutName) with
  | .error _ => .errorResponse
  | .ok v =>
    let shortcut := v.asShortcut
    let relayState :=
      match shortcut.RelayState with
      | some r => r
      | none => if shortcut.URISuffixAsRelayState then stateParam else ""
    .handoff shortcut.ServiceProviderID relayState

/-- Route bindings of the IDP-initiated login flow, from
`InitializeHTTP` (logger.go part of src/): given the request path
segments after `/login/`, `mux.Any("/login/:shortcut",
s.HandleIDPInitiated)` binds a single segment to the `shortcut`
parameter (the unbound `state` parameter then reads as the empty
string), and `mux.POST("/login/:shortcut/:state", s.HandleIDPInitiated)`
binds two segments to `shortcut` and `state`; any other shape matches
neither registered `HandleIDPInitiated` route. -/
def loginRouteParams : List String → Option (String × String)
  | [shortcutSeg] => some (shortcutSeg, "")
  | [shortcutSeg, stateSeg] => some (shortcutSeg, stateSeg)
  | _ => none

/-- Inserting at `k` makes a subsequent lookup of `k` return the new
value (Go map update semantics). -/
theorem mapLookup_mapInsert_self {α : Type} (m : List (String × α))
    (k : String) (v : α) : mapLookup (mapInsert m k v) k = some v := by
  induction m with
  | nil => simp [mapInsert, mapLookup]
  | cons kv rest ih =>
    obtain ⟨k₁, v₁⟩ := kv
    by_cases h : k₁ = k <;> simp [mapInsert, mapLookup, h, ih]

/-- Inserting at `k` leaves the lookup of any other key unchanged. -/
theorem mapLookup_mapInsert_ne {α : Type} (m : List (String × α))
    (k j : String) (v : α) (h : j ≠ k) :
    mapLookup (mapInsert m k v) j = mapLookup m j := by
  have hkj : k ≠ j := fun he => h he.symm
  induction m with
  | nil => simp [mapInsert, mapLookup, hkj]
  | cons kv rest ih =>
    obtain ⟨k₁, v₁⟩ := kv
    by_cases h₁ : k₁ = k
    · subst h₁
      simp [mapInsert, mapLookup, hkj]
    · simp [mapInsert, mapLookup, h₁, ih]

/-- An example service-provider metadata document. -/
def exampleDescriptor : EntityDescriptor :=
  { EntityID := "https://sp.example/meta", rest := "<md/>" }

/-- C1: after a Service PUT whose decoded metadata is `d`, the handler
answers 204, a registry lookup for `d.EntityID` returns the stored
metadata, and a GET of the same id XML-encodes the same metadata. -/
theorem C1_service_put_get_roundtrip (s : Server) (id : String)
    (d : EntityDescriptor) :
    (HandlePutService s id (.valid d) none).2 = .noContent ∧
    GetServiceProvider (HandlePutService s id (.valid d) none).1 d.EntityID =
      .ok d ∧
    HandleGetService (HandlePutService s id (.valid d) none).1 id none =
      .okXMLEntityDescriptor d := by
  refine ⟨rfl, ?_, ?_⟩
  · simp [HandlePutService, getSPMetadata, storePutF, GetServiceProvider,
      mapLookup_mapInsert_self]
  · simp [HandlePutService, getSPMetadata, storePutF, HandleGetService,
      storeGetF, storeGet, mapLookup_mapInsert_self, StoreValue.asService]

/-- C2 counterexample: a Service PUT at id `x` stores a record whose
`Name` field is the empty string, not the path parameter `x`: the handler
never assigns `Name` from the URL. -/
theorem C2_counterexample :
    mapLookup
      (HandlePutService { store := [], serviceProviders := [] } "x"
        (.valid exampleDescriptor) none).1.store "/services/x" =
      some (.service { Name := "", Metadata := exampleDescriptor }) ∧
    ("" : String) ≠ "x" := by
  exact ⟨rfl, by decide⟩

/-- C2 amended: the User and Shortcut PUT handlers set the stored
stored `Name` field of the record to the `:id` path parameter, overriding any name in the
body; the Service PUT handler instead always stores `Name` as the empty
string (the XML body carries no name and the handler never assigns
one). -/
theorem C2_put_name_from_url (s : Server) (id : String) (u : User)
    (sc : Shortcut) (d : EntityDescriptor) (hash : HashFn)
    (gf : Option StoreErr)
    (hu : (HandlePutUser s id (.valid u) hash gf none).2 = .noContent) :
    (mapLookup (HandlePutUser s id (.valid u) hash gf none).1.store
        ("/users/" ++ id)).map (fun v => v.asUser.Name) = some id ∧
    mapLookup (HandlePutShortcut s id (.valid sc) none).1.store
        ("/shortcuts/" ++ id) =
      some (.shortcut { sc with Name := id }) ∧
    mapLookup (HandlePutService s id (.valid d) none).1.store
        ("/services/" ++ id) =
      some (.service { Name := "", Metadata := d }) := by
  refine ⟨?_, ?_, ?_⟩
  · revert hu
    simp only [HandlePutUser]
    cases hcred :
        (match u.PlaintextPassword with
          | some pw =>
            match hash pw with
            | .error _ => .error ()
            | .ok h => .ok h
          | none =>
            match storeGetF s.store gf ("/users/" ++ id) with
            | .ok existingUser => .ok existingUser.asUser.HashedPassword
            | .error .notFound => .ok u.HashedPassword
            | .error (.other _) => .error () :
          Except Unit (List Nat)) with
    | error e => intro h; simp at h
    | ok cred =>
      intro _
      simp [storePutF, mapLookup_mapInsert_self, StoreValue.asUser]
  · simp [HandlePutShortcut, storePutF, mapLookup_mapInsert_self]
  · simp [HandlePutService, getSPMetadata, storePutF, mapLookup_mapInsert_self]

/-- C2 witness: the amended statement at a concrete input. -/
theorem C2_put_name_from_url_witness :
    (mapLookup
      (HandlePutUser { store := [], serviceProviders := [] } "alice"
        (.valid {}) (fun _ => .ok []) none none).1.store
      "/users/alice").map (fun v => v.asUser.Name) = some "alice" ∧
    mapLookup
      (HandlePutShortcut { store := [], serviceProviders := [] } "alice"
        (.valid {}) none).1.store "/shortcuts/alice" =
      some (.shortcut { Name := "alice" }) ∧
    mapLookup
      (HandlePutService { store := [], serviceProviders := [] } "alice"
        (.valid exampleDescriptor) none).1.store "/services/alice" =
      some (.service { Name := "", Metadata := exampleDescriptor }) :=
  C2_put_name_from_url { store := [], serviceProviders := [] } "alice" {}
    {} exampleDescriptor (fun _ => .ok []) none rfl

/-- When a User PUT reports 204, the put fault was absent and the store
gained exactly the decoded body with `Name` forced to the path id,
`PlaintextPassword` cleared, and `HashedPassword` resolved to some
credential. -/
theorem handlePutUser_noContent_store (s : Server) (id : String) (u : User)
    (hash : HashFn) (gf pf : Option StoreErr)
    (h : (HandlePutUser s id (.valid u) hash gf pf).2 = .noContent) :
    ∃ cred, pf = none ∧
      (HandlePutUser s id (.valid u) hash gf pf).1.store =
        mapInsert s.store ("/users/" ++ id)
          (.user { u with
                   Name := id, PlaintextPassword := none,
                   HashedPassword := cred }) := by
  revert h
  simp only [HandlePutUser]
  cases hcred :
      (match u.PlaintextPassword with
        | some pw =>
          match hash pw with
          | .error _ => .error ()
          | .ok h => .ok h
        | none =>
          match storeGetF s.store gf ("/users/" ++ id) with
          | .ok existingUser => .ok existingUser.asUser.HashedPassword
          | .error .notFound => .ok u.HashedPassword
          | .error (.other _) => .error () :
        Except Unit (List Nat)) with
  | error e => intro h; simp at h
  | ok cred =>
    cases pf with
    | some e => intro h; simp [storePutF] at h
    | none => intro _; exact ⟨cred, rfl, by simp [storePutF]⟩

/-- C3 counterexample: on a fresh id (fetch reports NotFound), a PUT
whose body omits the password but supplies a `hashed_password` value
stores that credential, not an empty one. -/
theorem C3_counterexample :
    (HandlePutUser { store := [], serviceProviders := [] } "alice"
        (.valid { HashedPassword := [1, 2, 3] }) (fun _ => .ok []) none
        none).2 = .noContent ∧
    (mapLookup
        (HandlePutUser { store := [], serviceProviders := [] } "alice"
          (.valid { HashedPassword := [1, 2, 3] }) (fun _ => .ok []) none
          none).1.store "/users/alice").map
      (fun v => v.asUser.HashedPassword) = some [1, 2, 3] ∧
    [1, 2, 3] ≠ ([] : List Nat) := by
  exact ⟨rfl, rfl, by decide⟩

/-- C3 amended: on a password-less User PUT, if the existing record is
found its stored credential is carried forward unchanged; if the fetch
reports NotFound the stored record keeps whatever credential the body
itself supplied (none when the body supplies none); any other fetch
error aborts with an internal error and nothing is written. -/
theorem C3_credential_carry_forward (s : Server) (id : String) (u : User)
    (hash : HashFn) (n : Nat) (hno : u.PlaintextPassword = none) :
    (∀ v, mapLookup s.store ("/users/" ++ id) = some v →
      (HandlePutUser s id (.valid u) hash none none).2 = .noContent ∧
      (mapLookup (HandlePutUser s id (.valid u) hash none none).1.store
          ("/users/" ++ id)).map (fun w => w.asUser.HashedPassword) =
        some v.asUser.HashedPassword) ∧
    (mapLookup s.store ("/users/" ++ id) = none →
      (HandlePutUser s id (.valid u) hash none none).2 = .noContent ∧
      mapLookup (HandlePutUser s id (.valid u) hash none none).1.store
          ("/users/" ++ id) =
        some (.user { u with Name := id, PlaintextPassword := none })) ∧
    HandlePutUser s id (.valid u) hash (some (.other n)) none =
      (s, .internalServerError) := by
  refine ⟨?_, ?_, ?_⟩
  · intro v hv
    simp [HandlePutUser, hno, storeGetF, storeGet, hv, storePutF,
      mapLookup_mapInsert_self, StoreValue.asUser]
  · intro hv
    simp [HandlePutUser, hno, storeGetF, storeGet, hv, storePutF,
      mapLookup_mapInsert_self, StoreValue.asUser]
  · simp [HandlePutUser, hno, storeGetF]

/-- C3 witness: the amended statement at a concrete input (an existing
record with credential `[9]`, an update body with no password). -/
theorem C3_credential_carry_forward_witness :
    ((HandlePutUser
        { store := [("/users/alice",
            .user { Name := "alice", HashedPassword := [9] })],
          serviceProviders := [] } "alice" (.valid {}) (fun _ => .ok [])
        none none).2 = .noContent ∧
      (mapLookup
          (HandlePutUser
            { store := [("/users/alice",
                .user { Name := "alice", HashedPassword := [9] })],
              serviceProviders := [] } "alice" (.valid {})
            (fun _ => .ok []) none none).1.store "/users/alice").map
        (fun w => w.asUser.HashedPassword) = some [9]) ∧
    HandlePutUser
        { store := [("/users/alice",
            .user { Name := "alice", HashedPassword := [9] })],
          serviceProviders := [] } "alice" (.valid {}) (fun _ => .ok [])
        (some (.other 0)) none =
      ({ store := [("/users/alice",
            .user { Name := "alice", HashedPassword := [9] })],
          serviceProviders := [] }, .internalServerError) := by
  have h := C3_credential_carry_forward
    { store := [("/users/alice",
        .user { Name := "alice", HashedPassword := [9] })],
      serviceProviders := [] } "alice" {} (fun _ => .ok []) 0 rfl
  exact ⟨h.1 (.user { Name := "alice", HashedPassword := [9] }) rfl, h.2.2⟩

/-- C4: a User record written by PUT has its plaintext password cleared,
and a subsequent GET of that id answers with the stored record with the
hashed credential scrubbed — so the response shows neither the plaintext
nor the stored hash. -/
theorem C4_no_credential_leak (s : Server) (id : String) (u : User)
    (hash : HashFn) (gf pf : Option StoreErr)
    (h : (HandlePutUser s id (.valid u) hash gf pf).2 = .noContent) :
    (mapLookup (HandlePutUser s id (.valid u) hash gf pf).1.store
        ("/users/" ++ id)).map (fun v => v.asUser.PlaintextPassword) =
      some none ∧
    HandleGetUser (HandlePutUser s id (.valid u) hash gf pf).1 id none =
      .okJSONUser { u with
                    Name := id, PlaintextPassword := none,
                    HashedPassword := [] } := by
  obtain ⟨cred, hpf, hst⟩ :=
    handlePutUser_noContent_store s id u hash gf pf h
  constructor
  · rw [hst]
    simp [mapLookup_mapInsert_self, StoreValue.asUser]
  · simp [HandleGetUser, storeGetF, storeGet, hst, mapLookup_mapInsert_self,
      StoreValue.asUser]

/-- C4 witness: the statement at a concrete input (a PUT supplying a
plaintext password). -/
theorem C4_no_credential_leak_witness :
    (mapLookup
        (HandlePutUser { store := [], serviceProviders := [] } "alice"
          (.valid { PlaintextPassword := some "hunter2" })
          (fun _ => .ok [7, 7]) none none).1.store "/users/alice").map
      (fun v => v.asUser.PlaintextPassword) = some none ∧
    HandleGetUser
        (HandlePutUser { store := [], serviceProviders := [] } "alice"
          (.valid { PlaintextPassword := some "hunter2" })
          (fun _ => .ok [7, 7]) none none).1 "alice" none =
      .okJSONUser { Name := "alice",
                    PlaintextPassword := none,
                    HashedPassword := [] } :=
  C4_no_credential_leak { store := [], serviceProviders := [] } "alice"
    { PlaintextPassword := some "hunter2" } (fun _ => .ok [7, 7]) none none
    rfl

/-- The shortcut stored by the concrete C5 scenario. -/
def promoShortcut : Shortcut :=
  { Name := "promo", ServiceProviderID := "https://sp.example/meta",
    RelayState := none, URISuffixAsRelayState := true }

/-- C5: an IDP-initiated login that finds its shortcut hands
`(ServiceProviderID, relayState)` to ServeIDPInitiated, where the relay
state is the fixed `RelayState` when set, else the `state` path
parameter when `URISuffixAsRelayState` is true, else the empty string;
and after a Shortcut PUT with a uri-suffix shortcut, a login through
that shortcut hands off the stored target with the suffix as relay
state. -/
theorem C5_dispatch_relay_state (s : Server) (name stateParam : String)
    (sc : Shortcut) (s₀ : Server) (id spid n₀ suffix : String)
    (h : mapLookup s.store ("/shortcuts/" ++ name) = some (.shortcut sc)) :
    HandleIDPInitiated s name stateParam none =
      .handoff sc.ServiceProviderID
        (match sc.RelayState with
         | some r => r
         | none => if sc.URISuffixAsRelayState then stateParam else "") ∧
    HandleIDPInitiated
        (HandlePutShortcut s₀ id
          (.valid { Name := n₀, ServiceProviderID := spid,
                    RelayState := none, URISuffixAsRelayState := true })
          none).1
        id suffix none =
      .handoff spid suffix := by
  constructor
  · simp [HandleIDPInitiated, storeGetF, storeGet, h, StoreValue.asShortcut]
  · simp [HandlePutShortcut, storePutF, HandleIDPInitiated, storeGetF,
      storeGet, mapLookup_mapInsert_self, StoreValue.asShortcut]

/-- C5 witness: the concrete scenario — the request
`POST /login/promo/campaign42` binds router parameters `promo` and
`campaign42`, and after `PUT /shortcuts/promo` with a uri-suffix
shortcut for `https://sp.example/meta`, dispatching those parameters
hands off relay state `campaign42` and that target. -/
theorem C5_dispatch_relay_state_witness :
    loginRouteParams ["promo", "campaign42"] =
      some ("promo", "campaign42") ∧
    (HandleIDPInitiated
        { store := [("/shortcuts/promo", .shortcut promoShortcut)],
          serviceProviders := [] }
        "promo" "campaign42" none =
      .handoff "https://sp.example/meta" "campaign42" ∧
    HandleIDPInitiated
        (HandlePutShortcut { store := [], serviceProviders := [] } "promo"
          (.valid { Name := "", ServiceProviderID := "https://sp.example/meta",
                    RelayState := none, URISuffixAsRelayState := true })
          none).1
        "promo" "campaign42" none =
      .handoff "https://sp.example/meta" "campaign42") :=
  ⟨rfl,
   C5_dispatch_relay_state
    { store := [("/shortcuts/promo", .shortcut promoShortcut)],
      serviceProviders := [] }
    "promo" "campaign42" promoShortcut
    { store := [], serviceProviders := [] } "promo"
    "https://sp.example/meta" "" "campaign42" rfl⟩

/-- C6: for each single-resource GET, a NotFound Store answer produces
exactly the internal-server-error response that any other Store failure
produces, including the natural NotFound of an absent key. -/
theorem C6_get_notfound_indistinct (s : Server) (id : String) (n : Nat) :
    HandleGetService s id (some .notFound) = .internalServerError ∧
    HandleGetService s id (some (.other n)) = .internalServerError ∧
    HandleGetUser s id (some .notFound) = .internalServerError ∧
    HandleGetUser s id (some (.other n)) = .internalServerError ∧
    HandleGetShortcut s id (some .notFound) = .internalServerError ∧
    HandleGetShortcut s id (some (.other n)) = .internalServerError ∧
    (mapLookup s.store ("/services/" ++ id) = none →
      HandleGetService s id none = .internalServerError) ∧
    (mapLookup s.store ("/users/" ++ id) = none →
      HandleGetUser s id none = .internalServerError) ∧
    (mapLookup s.store ("/shortcuts/" ++ id) = none →
      HandleGetShortcut s id none = .internalServerError) := by
  refine ⟨rfl, rfl, rfl, rfl, rfl, rfl, ?_, ?_, ?_⟩ <;>
    intro hv <;>
    simp [HandleGetService, HandleGetUser, HandleGetShortcut, storeGetF,
      storeGet, hv]

/-- C6 witness: the statement at a concrete input (empty store, so all
three natural-NotFound hypotheses hold). -/
theorem C6_get_notfound_indistinct_witness :
    HandleGetService { store := [], serviceProviders := [] } "x"
        (some .notFound) = .internalServerError ∧
    HandleGetService { store := [], serviceProviders := [] } "x"
        (some (.other 0)) = .internalServerError ∧
    HandleGetService { store := [], serviceProviders := [] } "x" none =
      .internalServerError ∧
    HandleGetUser { store := [], serviceProviders := [] } "x" none =
      .internalServerError ∧
    HandleGetShortcut { store := [], serviceProviders := [] } "x" none =
      .internalServerError := by
  have h := C6_get_notfound_indistinct
    { store := [], serviceProviders := [] } "x" 0
  exact ⟨h.1, h.2.1, h.2.2.2.2.2.2.1 rfl, h.2.2.2.2.2.2.2.1 rfl,
    h.2.2.2.2.2.2.2.2 rfl⟩

/-- C7: a Service PUT whose new metadata carries a different EntityID
overwrites nothing at the old registry key: afterwards the registry
still maps the old EntityID to the old descriptor, alongside the new
entry. -/
theorem C7_old_entity_id_not_evicted (s : Server) (id eOld : String)
    (dOld dNew : EntityDescriptor)
    (h₁ : mapLookup s.serviceProviders eOld = some dOld)
    (h₂ : eOld ≠ dNew.EntityID) :
    (HandlePutService s id (.valid dNew) none).2 = .noContent ∧
    mapLookup (HandlePutService s id (.valid dNew) none).1.serviceProviders
        eOld = some dOld ∧
    mapLookup (HandlePutService s id (.valid dNew) none).1.serviceProviders
        dNew.EntityID = some dNew := by
  refine ⟨rfl, ?_, ?_⟩
  · simp only [HandlePutService, getSPMetadata, storePutF]
    rw [mapLookup_mapInsert_ne _ _ _ _ h₂]
    exact h₁
  · simp [HandlePutService, getSPMetadata, storePutF,
      mapLookup_mapInsert_self]

/-- C7 witness: the statement at a concrete input. -/
theorem C7_old_entity_id_not_evicted_witness :
    (HandlePutService
        { store := [("/services/svc1",
            .service { Name := "",
                       Metadata := { EntityID := "old-entity", rest := "" } })],
          serviceProviders :=
            [("old-entity", { EntityID := "old-entity", rest := "" })] }
        "svc1" (.valid { EntityID := "new-entity", rest := "" }) none).2 =
      .noContent ∧
    mapLookup
        (HandlePutService
          { store := [("/services/svc1",
              .service { Name := "",
                         Metadata := { EntityID := "old-entity", rest := "" } })],
            serviceProviders :=
              [("old-entity", { EntityID := "old-entity", rest := "" })] }
          "svc1" (.valid { EntityID := "new-entity", rest := "" })
          none).1.serviceProviders "old-entity" =
      some { EntityID := "old-entity", rest := "" } ∧
    mapLookup
        (HandlePutService
          { store := [("/services/svc1",
              .service { Name := "",
                         Metadata := { EntityID := "old-entity", rest := "" } })],
            serviceProviders :=
              [("old-entity", { EntityID := "old-entity", rest := "" })] }
          "svc1" (.valid { EntityID := "new-entity", rest := "" })
          none).1.serviceProviders "new-entity" =
      some { EntityID := "new-entity", rest := "" } :=
  C7_old_entity_id_not_evicted
    { store := [("/services/svc1",
        .service { Name := "",
                   Metadata := { EntityID := "old-entity", rest := "" } })],
      serviceProviders :=
        [("old-entity", { EntityID := "old-entity", rest := "" })] }
    "svc1" "old-entity" { EntityID := "old-entity", rest := "" }
    { EntityID := "new-entity", rest := "" } rfl (by decide)

/-- C8: Service PUT and DELETE touch the registry only after the Store
write or delete succeeded; whenever the outcome is not 204 (any Store
failure, including the Get before a delete) the server — store and
registry alike — is returned unchanged with the internal-error
response. -/
theorem C8_registry_only_after_store (s : Server) (id : String)
    (d : EntityDescriptor) (body : SPMetadataBody) (e : StoreErr)
    (pf gf df : Option StoreErr) :
    ((HandlePutService s id body pf).2 ≠ .noContent →
      (HandlePutService s id body pf).1 = s) ∧
    ((HandleDeleteService s id gf df).2 ≠ .noContent →
      (HandleDeleteService s id gf df).1 = s) ∧
    HandlePutService s id (.valid d) (some e) = (s, .internalServerError) ∧
    HandleDeleteService s id (some e) df = (s, .internalServerError) ∧
    HandleDeleteService s id none (some e) = (s, .internalServerError) := by
  refine ⟨?_, ?_, rfl, rfl, ?_⟩
  · cases body with
    | malformed => intro _; rfl
    | valid dv =>
      cases pf with
      | some ev => intro _; rfl
      | none => intro h; exact absurd rfl h
  · cases gf with
    | some ev => intro _; rfl
    | none =>
      cases hv : mapLookup s.store ("/services/" ++ id) with
      | none => intro _; simp [HandleDeleteService, storeGetF, storeGet, hv]
      | some v =>
        cases df with
        | some ev =>
          intro _
          simp [HandleDeleteService, storeGetF, storeGet, hv, storeDeleteF]
        | none =>
          intro h
          exact absurd
            (by simp [HandleDeleteService, storeGetF, storeGet, hv,
              storeDeleteF]) h
  · cases hv : mapLookup s.store ("/services/" ++ id) with
    | none => simp [HandleDeleteService, storeGetF, storeGet, hv]
    | some v =>
      simp [HandleDeleteService, storeGetF, storeGet, hv, storeDeleteF]

/-- A server holding one stored Service and its registry entry, used by
the C8 witness. -/
def exampleServiceServer : Server :=
  { store := [("/services/a",
      .service { Name := "", Metadata := exampleDescriptor })],
    serviceProviders := [("https://sp.example/meta", exampleDescriptor)] }

/-- C8 witness: the statement at a concrete input, with both failure
implications discharged by an injected backend fault. -/
theorem C8_registry_only_after_store_witness :
    (HandlePutService exampleServiceServer "a" (.valid exampleDescriptor)
        (some (.other 3))).1 = exampleServiceServer ∧
    (HandleDeleteService exampleServiceServer "a" none
        (some (.other 3))).1 = exampleServiceServer ∧
    HandlePutService exampleServiceServer "a" (.valid exampleDescriptor)
        (some (.other 3)) = (exampleServiceServer, .internalServerError) ∧
    HandleDeleteService exampleServiceServer "a" (some (.other 3))
        (some (.other 3)) = (exampleServiceServer, .internalServerError) ∧
    HandleDeleteService exampleServiceServer "a" none (some (.other 3)) =
      (exampleServiceServer, .internalServerError) := by
  have h := C8_registry_only_after_store exampleServiceServer "a"
    exampleDescriptor (.valid exampleDescriptor) (.other 3)
    (some (.other 3)) none (some (.other 3))
  exact ⟨h.1 (by decide), h.2.1 (by decide), h.2.2.1, h.2.2.2.1,
    h.2.2.2.2⟩

/-- The startup Store of the C9 scenario: exactly one Service under the
`/services/` prefix. -/
def exampleRegistryStore : StoreMap :=
  [("/services/sp1", .service { Name := "sp1", Metadata := exampleDescriptor })]

/-- C9: `GetServiceProvider` answers `os.ErrNotExist` exactly when the
registry has no entry for the asked id; and after startup initialization
from a Store holding one Service with EntityID
`https://sp.example/meta`, a lookup for that EntityID returns the stored
descriptor while a lookup for any other id returns the NotFound
error. -/
theorem C9_initialize_then_lookup (s : Server) (eid other : String)
    (hother : other ≠ "https://sp.example/meta") :
    (GetServiceProvider s eid = .error .errNotExist ↔
      mapLookup s.serviceProviders eid = none) ∧
    initializeServices
        { store := exampleRegistryStore, serviceProviders := [] } =
      .ok { store := exampleRegistryStore,
            serviceProviders :=
              [("https://sp.example/meta", exampleDescriptor)] } ∧
    GetServiceProvider
        { store := exampleRegistryStore,
          serviceProviders :=
            [("https://sp.example/meta", exampleDescriptor)] }
        "https://sp.example/meta" = .ok exampleDescriptor ∧
    GetServiceProvider
        { store := exampleRegistryStore,
          serviceProviders :=
            [("https://sp.example/meta", exampleDescriptor)] }
        other = .error .errNotExist := by
  refine ⟨?_, rfl, rfl, ?_⟩
  · unfold GetServiceProvider
    cases hv : mapLookup s.serviceProviders eid <;> simp [hv]
  · have hne : "https://sp.example/meta" ≠ other := fun hh => hother hh.symm
    simp [GetServiceProvider, mapLookup, hne]

/-- C9 witness: the statement at a concrete input. -/
theorem C9_initialize_then_lookup_witness :
    (GetServiceProvider { store := [], serviceProviders := [] } "x" =
        .error .errNotExist ↔
      mapLookup ([] : List (String × EntityDescriptor)) "x" = none) ∧
    initializeServices
        { store := exampleRegistryStore, serviceProviders := [] } =
      .ok { store := exampleRegistryStore,
            serviceProviders :=
              [("https://sp.example/meta", exampleDescriptor)] } ∧
    GetServiceProvider
        { store := exampleRegistryStore,
          serviceProviders :=
            [("https://sp.example/meta", exampleDescriptor)] }
        "https://sp.example/meta" = .ok exampleDescriptor ∧
    GetServiceProvider
        { store := exampleRegistryStore,
          serviceProviders :=
            [("https://sp.example/meta", exampleDescriptor)] }
        "https://other.example" = .error .errNotExist :=
  C9_initialize_then_lookup { store := [], serviceProviders := [] } "x"
    "https://other.example" (by decide)

/-- C10: every stored User field other than `Name` and the credential
comes solely from the decoded body — a successful PUT stores the supplied
Groups, Email, CommonName, Surname, GivenName and ScopedAffiliation
verbatim, so values present only in the previously stored record are
lost, not merged. -/
theorem C10_user_fields_not_merged (s : Server) (id : String) (u : User)
    (hash : HashFn) (gf pf : Option StoreErr)
    (h : (HandlePutUser s id (.valid u) hash gf pf).2 = .noContent) :
    (mapLookup (HandlePutUser s id (.valid u) hash gf pf).1.store
        ("/users/" ++ id)).map (fun v => v.asUser.Groups) =
      some u.Groups ∧
    (mapLookup (HandlePutUser s id (.valid u) hash gf pf).1.store
        ("/users/" ++ id)).map (fun v => v.asUser.Email) = some u.Email ∧
    (mapLookup (HandlePutUser s id (.valid u) hash gf pf).1.store
        ("/users/" ++ id)).map (fun v => v.asUser.CommonName) =
      some u.CommonName ∧
    (mapLookup (HandlePutUser s id (.valid u) hash gf pf).1.store
        ("/users/" ++ id)).map (fun v => v.asUser.Surname) =
      some u.Surname ∧
    (mapLookup (HandlePutUser s id (.valid u) hash gf pf).1.store
        ("/users/" ++ id)).map (fun v => v.asUser.GivenName) =
      some u.GivenName ∧
    (mapLookup (HandlePutUser s id (.valid u) hash gf pf).1.store
        ("/users/" ++ id)).map (fun v => v.asUser.ScopedAffiliation) =
      some u.ScopedAffiliation := by
  obtain ⟨cred, hpf, hst⟩ :=
    handlePutUser_noContent_store s id u hash gf pf h
  refine ⟨?_, ?_, ?_, ?_, ?_, ?_⟩ <;>
    (rw [hst]; simp [mapLookup_mapInsert_self, StoreValue.asUser])

/-- A previously stored User with every optional field populated, used
by the C10 witness. -/
def exampleStoredUser : User :=
  { Name := "alice", HashedPassword := [9], Groups := ["admins"],
    Email := "old@example.com", CommonName := "Alice",
    Surname := "Liddell", GivenName := "Alice",
    ScopedAffiliation := "staff" }

/-- C10 witness: a password-less update body carrying only an email
overwrites the record; the stored Groups, CommonName, Surname,
GivenName and ScopedAffiliation become the zero values of the body, not the
previously stored ones. -/
theorem C10_user_fields_not_merged_witness :
    (mapLookup
        (HandlePutUser
          { store := [("/users/alice", .user exampleStoredUser)],
            serviceProviders := [] } "alice"
          (.valid { Email := "new@example.com" }) (fun _ => .ok []) none
          none).1.store "/users/alice").map
      (fun v => v.asUser.Groups) = some [] ∧
    (mapLookup
        (HandlePutUser
          { store := [("/users/alice", .user exampleStoredUser)],
            serviceProviders := [] } "alice"
          (.valid { Email := "new@example.com" }) (fun _ => .ok []) none
          none).1.store "/users/alice").map
      (fun v => v.asUser.Email) = some "new@example.com" ∧
    (mapLookup
        (HandlePutUser
          { store := [("/users/alice", .user exampleStoredUser)],
            serviceProviders := [] } "alice"
          (.valid { Email := "new@example.com" }) (fun _ => .ok []) none
          none).1.store "/users/alice").map
      (fun v => v.asUser.CommonName) = some "" ∧
    (mapLookup
        (HandlePutUser
          { store := [("/users/alice", .user exampleStoredUser)],
            serviceProviders := [] } "alice"
          (.valid { Email := "new@example.com" }) (fun _ => .ok []) none
          none).1.store "/users/alice").map
      (fun v => v.asUser.Surname) = some "" ∧
    (mapLookup
        (HandlePutUser
          { store := [("/users/alice", .user exampleStoredUser)],
            serviceProviders := [] } "alice"
          (.valid { Email := "new@example.com" }) (fun _ => .ok []) none
          none).1.store "/users/alice").map
      (fun v => v.asUser.GivenName) = some "" ∧
    (mapLookup
        (HandlePutUser
          { store := [("/users/alice", .user exampleStoredUser)],
            serviceProviders := [] } "alice"
          (.valid { Email := "new@example.com" }) (fun _ => .ok []) none
          none).1.store "/users/alice").map
      (fun v => v.asUser.ScopedAffiliation) = some "" :=
  C10_user_fields_not_merged
    { store := [("/users/alice", .user exampleStoredUser)],
      serviceProviders := [] } "alice" { Email := "new@example.com" }
    (fun _ => .ok []) none none rfl

end Samlidp
